import Mathlib

/-!
Verification of the retry-with-backoff wrapper and the pure helper
functions of `build/azure-pipelines/common/createAsset.js`.

The repository fragment contains `createAsset.js` (the caller of the retry
wrapper, together with the pure helpers `getPlatform`, `getRealType` and
`getEnv`), `build/azure-pipelines/cli/prepare.js`, and a static notebook
definition.  The retry module itself (`./retry`, required by
`createAsset.js`) is not part of the fragment, so the RetryExecutor is
modelled from the specification; the helper functions are embedded
directly from `createAsset.js`.
-/

namespace Submit

/-- Modelled from the spec: a retry policy (`maxAttempts` positive integer,
`baseDelay` duration, `backoffFactor` multiplier), immutable for the
lifetime of one retry call.  The retry module required by `createAsset.js`
is absent from the fragment, so the policy record follows spec section 3. -/
structure RetryPolicy where
  maxAttempts : Nat
  baseDelay : Nat
  backoffFactor : Nat

/-- Modelled from the spec: the default policy values given in spec
section 3 (`maxAttempts` 5, `baseDelay` 1 time unit, `backoffFactor` 2). -/
def defaultPolicy : RetryPolicy :=
  ⟨5, 1, 2⟩

/-- Modelled from the spec: the failure taxonomy of spec section 7 — a
configuration error for an invalid policy, or the error propagated from
the final attempt of the wrapped operation. -/
inductive RetryError (ε : Type) where
  | configurationError : RetryError ε
  | operationError : ε → RetryError ε

/-- Observable behaviour of one `retry` call: its terminal outcome, the
number of invocations of the operation, and the list of backoff delays
inserted between successive attempts (the delay at index `i` is the wait
between attempt `i+1` and attempt `i+2`). -/
structure RetryTrace (ε α : Type) where
  outcome : Except (RetryError ε) α
  invocations : Nat
  delays : List Nat

/-- Modelled from the spec: the backoff delay inserted after a failed
attempt, `delay(attempt) = baseDelay * backoffFactor^(attempt-1)`,
attempt counted from 1 (spec section 4.1, behaviour step 2). -/
def backoffDelay (p : RetryPolicy) (attempt : Nat) : Nat :=
  p.baseDelay * p.backoffFactor ^ (attempt - 1)

/-- Modelled from the spec: the attempt loop of spec section 4.1.  The
operation is modelled as a function from the 1-based invocation index to
a result or an error; `fuel` is the number of retries still allowed after
the current attempt.  On success the result is returned immediately; on
failure with no fuel left the error of this (final) attempt is
propagated; otherwise the backoff delay is recorded and the next attempt
runs. -/
def retryLoop (op : Nat → Except ε α) (p : RetryPolicy)
    (fuel attempt : Nat) : RetryTrace ε α :=
  match op attempt with
  | .ok v => ⟨.ok v, 1, []⟩
  | .error e =>
    match fuel with
    | 0 => ⟨.error (.operationError e), 1, []⟩
    | fuel' + 1 =>
      let rest := retryLoop op p fuel' (attempt + 1)
      ⟨rest.outcome, rest.invocations + 1, backoffDelay p attempt :: rest.delays⟩

/-- Modelled from the spec: `retry(operation, policy)` of spec
section 4.1.  An invalid policy (`maxAttempts < 1`) fails fast with a
configuration error before any attempt is made (spec section 7);
otherwise the attempt loop starts at attempt 1 with `maxAttempts - 1`
retries available. -/
def retry (op : Nat → Except ε α) (p : RetryPolicy) : RetryTrace ε α :=
  if p.maxAttempts < 1 then ⟨.error .configurationError, 0, []⟩
  else retryLoop op p (p.maxAttempts - 1) 1

/-- The `Unrecognized` error message thrown by `getPlatform`
(`createAsset.js`, the template literal
`Unrecognized: ${product} ${os} ${arch} ${type}`). -/
def unrecognizedMsg (product os arch type : String) : String :=
  "Unrecognized: " ++ product ++ " " ++ os ++ " " ++ arch ++ " " ++ type

/-- The `case 'win32'` arm of `getPlatform` in `createAsset.js`. -/
def win32Platform (product os arch type : String) : Except String String :=
  if product = "client" then
    let asset := if arch = "ia32" then "win32" else "win32-" ++ arch
    if type = "archive" then .ok (asset ++ "-archive")
    else if type = "setup" then .ok asset
    else if type = "user-setup" then .ok (asset ++ "-user")
    else .error (unrecognizedMsg product os arch type)
  else if product = "server" then
    if arch = "arm64" then .error (unrecognizedMsg product os arch type)
    else .ok (if arch = "ia32" then "server-win32" else "server-win32-" ++ arch)
  else if product = "web" then
    if arch = "arm64" then .error (unrecognizedMsg product os arch type)
    else .ok (if arch = "ia32" then "server-win32-web" else "server-win32-" ++ arch ++ "-web")
  else if product = "cli" then .ok ("cli-win32-" ++ arch)
  else .error (unrecognizedMsg product os arch type)

/-- The `case 'alpine'` arm of `getPlatform` in `createAsset.js`. -/
def alpinePlatform (product os arch type : String) : Except String String :=
  if product = "server" then .ok ("server-alpine-" ++ arch)
  else if product = "web" then .ok ("server-alpine-" ++ arch ++ "-web")
  else if product = "cli" then .ok ("cli-alpine-" ++ arch)
  else .error (unrecognizedMsg product os arch type)

/-- The `case 'linux'` arm of `getPlatform` in `createAsset.js`. -/
def linuxPlatform (product os arch type : String) : Except String String :=
  if type = "snap" then .ok ("linux-snap-" ++ arch)
  else if type = "archive-unsigned" then
    if product = "client" then .ok ("linux-" ++ arch)
    else if product = "server" then .ok ("server-linux-" ++ arch)
    else if product = "web" then
      .ok (if arch = "standalone" then "web-standalone" else "server-linux-" ++ arch ++ "-web")
    else .error (unrecognizedMsg product os arch type)
  else if type = "deb-package" then .ok ("linux-deb-" ++ arch)
  else if type = "rpm-package" then .ok ("linux-rpm-" ++ arch)
  else if type = "cli" then .ok ("cli-linux-" ++ arch)
  else .error (unrecognizedMsg product os arch type)

/-- The `case 'darwin'` arm of `getPlatform` in `createAsset.js`. -/
def darwinPlatform (product os arch type : String) : Except String String :=
  if product = "client" then .ok (if arch = "x64" then "darwin" else "darwin-" ++ arch)
  else if product = "server" then
    .ok (if arch = "x64" then "server-darwin" else "server-darwin-" ++ arch)
  else if product = "web" then
    .ok (if arch = "x64" then "server-darwin-web" else "server-darwin-" ++ arch ++ "-web")
  else if product = "cli" then .ok ("cli-darwin-" ++ arch)
  else .error (unrecognizedMsg product os arch type)

/-- `getPlatform` from `createAsset.js`: maps a
(product, os, arch, type) tuple to the platform name used in CosmosDB,
or throws an `Unrecognized` error, embedded as `Except`; the outer
`switch (os)` dispatches to the per-OS arms above. -/
def getPlatform (product os arch type : String) : Except String String :=
  if os = "win32" then win32Platform product os arch type
  else if os = "alpine" then alpinePlatform product os arch type
  else if os = "linux" then linuxPlatform product os arch type
  else if os = "darwin" then darwinPlatform product os arch type
  else .error (unrecognizedMsg product os arch type)

/-- `getRealType` from `createAsset.js`: maps a type to the type name
used in CosmosDB (`user-setup` to `setup`, `deb-package` and
`rpm-package` to `package`, everything else unchanged). -/
def getRealType (type : String) : String :=
  if type = "user-setup" then "setup"
  else if type = "deb-package" then "package"
  else if type = "rpm-package" then "package"
  else type

/-- `getEnv` from `createAsset.js`: the process environment is modelled
as a partial map from names to values; an undefined variable raises
`Missing env: <name>`, a defined one is returned verbatim. -/
def getEnv (env : String → Option String) (name : String) : Except String String :=
  match env name with
  | none => .error ("Missing env: " ++ name)
  | some v => .ok v

end Submit

namespace Submit

variable {ε α : Type}

/-! ### Unfolding lemmas for the attempt loop -/

theorem retryLoop_ok (op : Nat → Except ε α) (p : RetryPolicy) (fuel attempt : Nat)
    (v : α) (h : op attempt = .ok v) :
    retryLoop op p fuel attempt = ⟨.ok v, 1, []⟩ := by
  rw [retryLoop.eq_def, h]

theorem retryLoop_error_zero (op : Nat → Except ε α) (p : RetryPolicy) (attempt : Nat)
    (e : ε) (h : op attempt = .error e) :
    retryLoop op p 0 attempt = ⟨.error (.operationError e), 1, []⟩ := by
  rw [retryLoop.eq_def, h]

theorem retryLoop_error_succ (op : Nat → Except ε α) (p : RetryPolicy) (f attempt : Nat)
    (e : ε) (h : op attempt = .error e) :
    retryLoop op p (f + 1) attempt =
      ⟨(retryLoop op p f (attempt + 1)).outcome,
       (retryLoop op p f (attempt + 1)).invocations + 1,
       backoffDelay p attempt :: (retryLoop op p f (attempt + 1)).delays⟩ := by
  rw [retryLoop.eq_def, h]

/-! ### Structural lemmas about the attempt loop -/

theorem retryLoop_all_error (op : Nat → Except ε α) (p : RetryPolicy) (err : Nat → ε)
    (hop : ∀ n, op n = .error (err n)) :
    ∀ fuel attempt,
      (retryLoop op p fuel attempt).outcome
          = .error (.operationError (err (attempt + fuel))) ∧
      (retryLoop op p fuel attempt).invocations = fuel + 1 ∧
      (retryLoop op p fuel attempt).delays.length = fuel := by
  intro fuel
  induction fuel with
  | zero =>
    intro attempt
    rw [retryLoop_error_zero op p attempt (err attempt) (hop attempt)]
    simp
  | succ f ih =>
    intro attempt
    have h := ih (attempt + 1)
    have h2 : attempt + 1 + f = attempt + (f + 1) := by omega
    rw [h2] at h
    rw [retryLoop_error_succ op p f attempt (err attempt) (hop attempt)]
    exact ⟨h.1, by simp [h.2.1], by simp [h.2.2]⟩

theorem retryLoop_min_invocations (op : Nat → Except ε α) (p : RetryPolicy) :
    ∀ fuel attempt, 1 ≤ (retryLoop op p fuel attempt).invocations := by
  intro fuel attempt
  cases fuel with
  | zero =>
    cases h : op attempt with
    | ok v => rw [retryLoop_ok op p 0 attempt v h]
    | error e => rw [retryLoop_error_zero op p attempt e h]
  | succ f =>
    cases h : op attempt with
    | ok v => rw [retryLoop_ok op p (f + 1) attempt v h]
    | error e =>
      rw [retryLoop_error_succ op p f attempt e h]
      exact Nat.succ_le_succ (Nat.zero_le _)

theorem retryLoop_fail_prefix_invocations (op : Nat → Except ε α) (p : RetryPolicy) :
    ∀ j fuel attempt, j ≤ fuel →
      (∀ i, i < j → ∃ e, op (attempt + i) = .error e) →
      j + 1 ≤ (retryLoop op p fuel attempt).invocations := by
  intro j
  induction j with
  | zero =>
    intro fuel attempt _ _
    exact retryLoop_min_invocations op p fuel attempt
  | succ j ih =>
    intro fuel attempt hle hfail
    obtain ⟨e, he⟩ := hfail 0 (Nat.succ_pos j)
    rw [Nat.add_zero] at he
    cases fuel with
    | zero => omega
    | succ f =>
      have hrest := ih f (attempt + 1) (by omega) (fun i hi => by
        have h2 : attempt + 1 + i = attempt + (i + 1) := by omega
        rw [h2]
        exact hfail (i + 1) (by omega))
      rw [retryLoop_error_succ op p f attempt e he]
      show j + 1 + 1 ≤ (retryLoop op p f (attempt + 1)).invocations + 1
      omega

theorem retryLoop_succeeds_at (op : Nat → Except ε α) (p : RetryPolicy) (v : α) :
    ∀ j fuel attempt, j ≤ fuel →
      (∀ i, i < j → ∃ e, op (attempt + i) = .error e) →
      op (attempt + j) = .ok v →
      (retryLoop op p fuel attempt).outcome = .ok v ∧
      (retryLoop op p fuel attempt).invocations = j + 1 := by
  intro j
  induction j with
  | zero =>
    intro fuel attempt _ _ hsucc
    rw [Nat.add_zero] at hsucc
    rw [retryLoop_ok op p fuel attempt v hsucc]
    exact ⟨rfl, rfl⟩
  | succ j ih =>
    intro fuel attempt hle hfail hsucc
    obtain ⟨e, he⟩ := hfail 0 (Nat.succ_pos j)
    rw [Nat.add_zero] at he
    cases fuel with
    | zero => omega
    | succ f =>
      have hrest := ih f (attempt + 1) (by omega)
        (fun i hi => by
          have h2 : attempt + 1 + i = attempt + (i + 1) := by omega
          rw [h2]
          exact hfail (i + 1) (by omega))
        (by
          have h2 : attempt + 1 + j = attempt + (j + 1) := by omega
          rw [h2]
          exact hsucc)
      rw [retryLoop_error_succ op p f attempt e he]
      exact ⟨hrest.1, by simp [hrest.2]⟩

theorem retryLoop_delays_get (op : Nat → Except ε α) (p : RetryPolicy) :
    ∀ fuel attempt i d,
      (retryLoop op p fuel attempt).delays.get? i = some d →
      d = backoffDelay p (attempt + i) := by
  intro fuel
  induction fuel with
  | zero =>
    intro attempt i d h
    cases hop : op attempt with
    | ok v => rw [retryLoop_ok op p 0 attempt v hop] at h; simp at h
    | error e => rw [retryLoop_error_zero op p attempt e hop] at h; simp at h
  | succ f ih =>
    intro attempt i d h
    cases hop : op attempt with
    | ok v => rw [retryLoop_ok op p (f + 1) attempt v hop] at h; simp at h
    | error e =>
      rw [retryLoop_error_succ op p f attempt e hop] at h
      cases i with
      | zero =>
        simp at h
        rw [← h, Nat.add_zero]
      | succ i' =>
        simp only [List.get?] at h
        have hih := ih (attempt + 1) i' d h
        rw [hih]
        congr 1
        omega

theorem retryLoop_congr (op₁ op₂ : Nat → Except ε α) (p : RetryPolicy) :
    ∀ fuel attempt, (∀ i, attempt ≤ i → op₁ i = op₂ i) →
      retryLoop op₁ p fuel attempt = retryLoop op₂ p fuel attempt := by
  intro fuel
  induction fuel with
  | zero =>
    intro attempt hagree
    have h1 := hagree attempt le_rfl
    cases hop : op₂ attempt with
    | ok v =>
      rw [retryLoop_ok op₁ p 0 attempt v (h1.trans hop),
          retryLoop_ok op₂ p 0 attempt v hop]
    | error e =>
      rw [retryLoop_error_zero op₁ p attempt e (h1.trans hop),
          retryLoop_error_zero op₂ p attempt e hop]
  | succ f ih =>
    intro attempt hagree
    have h1 := hagree attempt le_rfl
    have h2 := ih (attempt + 1) (fun i hi => hagree i (by omega))
    cases hop : op₂ attempt with
    | ok v =>
      rw [retryLoop_ok op₁ p (f + 1) attempt v (h1.trans hop),
          retryLoop_ok op₂ p (f + 1) attempt v hop]
    | error e =>
      rw [retryLoop_error_succ op₁ p f attempt e (h1.trans hop),
          retryLoop_error_succ op₂ p f attempt e hop, h2]

theorem retryLoop_congr_fail_prefix (op₁ op₂ : Nat → Except ε α) (p : RetryPolicy) :
    ∀ j fuel attempt, j ≤ fuel →
      (∀ i, i < j → ∃ e, op₁ (attempt + i) = .error e) →
      (∀ i, i < j → ∃ e, op₂ (attempt + i) = .error e) →
      (∀ i, attempt + j ≤ i → op₁ i = op₂ i) →
      retryLoop op₁ p fuel attempt = retryLoop op₂ p fuel attempt := by
  intro j
  induction j with
  | zero =>
    intro fuel attempt _ _ _ hagree
    exact retryLoop_congr op₁ op₂ p fuel attempt (fun i hi => hagree i (by omega))
  | succ j ih =>
    intro fuel attempt hle h1 h2 hagree
    obtain ⟨e₁, he₁⟩ := h1 0 (Nat.succ_pos j)
    obtain ⟨e₂, he₂⟩ := h2 0 (Nat.succ_pos j)
    rw [Nat.add_zero] at he₁ he₂
    cases fuel with
    | zero => omega
    | succ f =>
      have hrest := ih f (attempt + 1) (by omega)
        (fun i hi => by
          have hx : attempt + 1 + i = attempt + (i + 1) := by omega
          rw [hx]
          exact h1 (i + 1) (by omega))
        (fun i hi => by
          have hx : attempt + 1 + i = attempt + (i + 1) := by omega
          rw [hx]
          exact h2 (i + 1) (by omega))
        (fun i hi => hagree i (by omega))
      rw [retryLoop_error_succ op₁ p f attempt e₁ he₁,
          retryLoop_error_succ op₂ p f attempt e₂ he₂, hrest]

theorem retryLoop_terminal (op : Nat → Except ε α) (p : RetryPolicy) :
    ∀ fuel attempt,
      (retryLoop op p fuel attempt).invocations ≤ fuel + 1 ∧
      ((∃ v, (retryLoop op p fuel attempt).outcome = .ok v ∧
             op (attempt + ((retryLoop op p fuel attempt).invocations - 1)) = .ok v) ∨
       (∃ e, (retryLoop op p fuel attempt).outcome = .error (.operationError e) ∧
             op (attempt + ((retryLoop op p fuel attempt).invocations - 1)) = .error e ∧
             (retryLoop op p fuel attempt).invocations = fuel + 1)) := by
  intro fuel
  induction fuel with
  | zero =>
    intro attempt
    cases hop : op attempt with
    | ok v =>
      rw [retryLoop_ok op p 0 attempt v hop]
      exact ⟨le_rfl, Or.inl ⟨v, rfl, by simpa using hop⟩⟩
    | error e =>
      rw [retryLoop_error_zero op p attempt e hop]
      exact ⟨le_rfl, Or.inr ⟨e, rfl, by simpa using hop, rfl⟩⟩
  | succ f ih =>
    intro attempt
    cases hop : op attempt with
    | ok v =>
      rw [retryLoop_ok op p (f + 1) attempt v hop]
      refine ⟨?_, Or.inl ⟨v, rfl, by simpa using hop⟩⟩
      show (1 : Nat) ≤ f + 1 + 1
      omega
    | error e =>
      have hmin := retryLoop_min_invocations op p f (attempt + 1)
      obtain ⟨hub, hcase⟩ := ih (attempt + 1)
      rw [retryLoop_error_succ op p f attempt e hop]
      have hidx : attempt + ((retryLoop op p f (attempt + 1)).invocations + 1 - 1)
          = (attempt + 1) + ((retryLoop op p f (attempt + 1)).invocations - 1) := by
        omega
      constructor
      · show (retryLoop op p f (attempt + 1)).invocations + 1 ≤ f + 1 + 1
        omega
      · show (∃ v, (retryLoop op p f (attempt + 1)).outcome = .ok v ∧
              op (attempt + ((retryLoop op p f (attempt + 1)).invocations + 1 - 1)) = .ok v) ∨
          (∃ e', (retryLoop op p f (attempt + 1)).outcome = .error (.operationError e') ∧
              op (attempt + ((retryLoop op p f (attempt + 1)).invocations + 1 - 1)) = .error e' ∧
              (retryLoop op p f (attempt + 1)).invocations + 1 = f + 1 + 1)
        rw [hidx]
        rcases hcase with ⟨v, hv1, hv2⟩ | ⟨e', he1, he2, he3⟩
        · exact Or.inl ⟨v, hv1, hv2⟩
        · exact Or.inr ⟨e', he1, he2, by omega⟩

/-! ### Claim theorems for the RetryExecutor -/

/-- C1: for an operation failing on every invocation and a policy with a
positive `maxAttempts`, `retry` invokes the operation exactly
`maxAttempts` times, fails with the error raised by the `maxAttempts`-th
invocation, and inserts `maxAttempts - 1` delays (so `maxAttempts = 1`
surfaces the first failure immediately, with no retry and no delay). -/
theorem retry_always_fails (op : Nat → Except ε α) (p : RetryPolicy) (err : Nat → ε)
    (hop : ∀ n, op n = Except.error (err n)) (hmax : 1 ≤ p.maxAttempts) :
    (retry op p).invocations = p.maxAttempts ∧
    (retry op p).outcome
        = Except.error (RetryError.operationError (err p.maxAttempts)) ∧
    (retry op p).delays.length = p.maxAttempts - 1 := by
  have hnot : ¬ p.maxAttempts < 1 := by omega
  have h := retryLoop_all_error op p err hop (p.maxAttempts - 1) 1
  have hx : 1 + (p.maxAttempts - 1) = p.maxAttempts := by omega
  rw [hx] at h
  rw [retry, if_neg hnot]
  refine ⟨?_, h.1, h.2.2⟩
  rw [h.2.1]
  omega

/-- C1 witness: with `maxAttempts = 3` and an operation raising error `n`
on its `n`-th call, `retry` makes 3 invocations, fails with the error of
call 3, and inserts 2 delays. -/
theorem retry_always_fails_witness :
    (retry (fun n => (Except.error n : Except Nat Nat)) ⟨3, 1, 2⟩).invocations = 3 ∧
    (retry (fun n => (Except.error n : Except Nat Nat)) ⟨3, 1, 2⟩).outcome
        = Except.error (RetryError.operationError 3) ∧
    (retry (fun n => (Except.error n : Except Nat Nat)) ⟨3, 1, 2⟩).delays.length = 3 - 1 :=
  retry_always_fails (fun n => Except.error n) ⟨3, 1, 2⟩ (fun n => n)
    (fun _ => rfl) (by decide)

/-- C2: for an operation failing on exactly its first `k` invocations and
succeeding on invocation `k+1`, with `k < maxAttempts`, `retry` returns
that success value after exactly `k+1` invocations. -/
theorem retry_eventual_success (op : Nat → Except ε α) (p : RetryPolicy)
    (err : Nat → ε) (k : Nat) (v : α)
    (hfail : ∀ n, 1 ≤ n → n ≤ k → op n = Except.error (err n))
    (hsucc : op (k + 1) = Except.ok v)
    (hk : k + 1 ≤ p.maxAttempts) :
    (retry op p).outcome = Except.ok v ∧ (retry op p).invocations = k + 1 := by
  have hnot : ¬ p.maxAttempts < 1 := by omega
  rw [retry, if_neg hnot]
  exact retryLoop_succeeds_at op p v k (p.maxAttempts - 1) 1 (by omega)
    (fun i hi => ⟨err (1 + i), hfail (1 + i) (by omega) (by omega)⟩)
    (by
      have hx : 1 + k = k + 1 := by omega
      rw [hx]
      exact hsucc)

/-- C2 witness: the spec scenario `baseDelay = 1`, `backoffFactor = 2`,
`maxAttempts = 4`, failures on calls 1–3 and success on call 4 — the
result is the call-4 success value after exactly 4 invocations. -/
theorem retry_eventual_success_witness :
    (retry (fun n => if n ≤ 3 then Except.error n else (Except.ok 42 : Except Nat Nat))
        ⟨4, 1, 2⟩).outcome = Except.ok 42 ∧
    (retry (fun n => if n ≤ 3 then Except.error n else (Except.ok 42 : Except Nat Nat))
        ⟨4, 1, 2⟩).invocations = 3 + 1 :=
  retry_eventual_success
    (fun n => if n ≤ 3 then Except.error n else Except.ok 42) ⟨4, 1, 2⟩
    (fun n => n) 3 42
    (fun n _ h3 => by simp [h3])
    (by norm_num)
    (by decide)

/-- C3: for an operation that succeeds on its first invocation and any
policy with positive `maxAttempts` (the spec requires `maxAttempts` to be
a positive integer), `retry` returns that result after exactly one
invocation with no delay. -/
theorem retry_first_success (op : Nat → Except ε α) (p : RetryPolicy) (v : α)
    (h1 : op 1 = Except.ok v) (hmax : 1 ≤ p.maxAttempts) :
    retry op p = ⟨Except.ok v, 1, []⟩ := by
  rw [retry, if_neg (by omega)]
  exact retryLoop_ok op p (p.maxAttempts - 1) 1 v h1

/-- C3 witness: an operation returning 7 immediately, under the default
policy values, yields outcome 7, one invocation and no delays. -/
theorem retry_first_success_witness :
    retry (fun _ => (Except.ok 7 : Except Nat Nat)) ⟨5, 1, 2⟩
      = ⟨Except.ok 7, 1, []⟩ :=
  retry_first_success (fun _ => Except.ok 7) ⟨5, 1, 2⟩ 7 rfl (by decide)

/-- C4: the delay recorded at index `i` of a `retry` trace (the delay
inserted before attempt `i+2`, i.e. before attempt `n+1` at index
`n-1`) equals `baseDelay * backoffFactor ^ i` exactly, and for
`backoffFactor ≥ 1` the recorded delays are monotonically
non-decreasing. -/
theorem retry_backoff_delays (op : Nat → Except ε α) (p : RetryPolicy) :
    (∀ i d, (retry op p).delays.get? i = some d →
        d = p.baseDelay * p.backoffFactor ^ i) ∧
    (1 ≤ p.backoffFactor →
      ∀ i j di dj, i ≤ j →
        (retry op p).delays.get? i = some di →
        (retry op p).delays.get? j = some dj → di ≤ dj) := by
  have hmain : ∀ i d, (retry op p).delays.get? i = some d →
      d = p.baseDelay * p.backoffFactor ^ i := by
    intro i d h
    by_cases hc : p.maxAttempts < 1
    · rw [retry, if_pos hc] at h
      simp at h
    · rw [retry, if_neg hc] at h
      have hd := retryLoop_delays_get op p (p.maxAttempts - 1) 1 i d h
      have hx : 1 + i - 1 = i := by omega
      rw [hd, backoffDelay, hx]
  refine ⟨hmain, fun hf i j di dj hij hi hj => ?_⟩
  rw [hmain i di hi, hmain j dj hj]
  exact Nat.mul_le_mul le_rfl (Nat.pow_le_pow_right hf hij)

/-- C4 witness: for an always-failing operation under
`⟨maxAttempts 3, baseDelay 1, backoffFactor 2⟩` the delay at index 1 is
`1 * 2 ^ 1` and the recorded delays at indices 0 and 1 are ordered. -/
theorem retry_backoff_delays_witness :
    ((2 : Nat) = 1 * 2 ^ 1) ∧ ((1 : Nat) ≤ 2) :=
  ⟨(retry_backoff_delays (fun n => (Except.error n : Except Nat Nat)) ⟨3, 1, 2⟩).1
      1 2 rfl,
   (retry_backoff_delays (fun n => (Except.error n : Except Nat Nat)) ⟨3, 1, 2⟩).2
      (by decide) 0 1 1 2 (by decide) rfl rfl⟩

/-- C5: errors raised before the `maxAttempts`-th attempt are absorbed and
a further attempt is always scheduled: if two operations both fail on
attempts `1..n` (`n < maxAttempts`) with arbitrary, possibly different,
errors and agree from attempt `n+1` on, their `retry` traces are
identical (so no intermediate error reaches the caller and no error kind
is treated as non-retryable), and at least `n+1` invocations occur. -/
theorem retry_absorbs_intermediate_errors (op₁ op₂ : Nat → Except ε α)
    (p : RetryPolicy) (err₁ err₂ : Nat → ε) (n : Nat)
    (hn : n < p.maxAttempts)
    (h₁ : ∀ i, 1 ≤ i → i ≤ n → op₁ i = Except.error (err₁ i))
    (h₂ : ∀ i, 1 ≤ i → i ≤ n → op₂ i = Except.error (err₂ i))
    (hagree : ∀ i, n < i → op₁ i = op₂ i) :
    retry op₁ p = retry op₂ p ∧ n + 1 ≤ (retry op₁ p).invocations := by
  have hnot : ¬ p.maxAttempts < 1 := by omega
  rw [retry, retry, if_neg hnot, if_neg hnot]
  constructor
  · exact retryLoop_congr_fail_prefix op₁ op₂ p n (p.maxAttempts - 1) 1 (by omega)
      (fun i hi => ⟨err₁ (1 + i), h₁ (1 + i) (by omega) (by omega)⟩)
      (fun i hi => ⟨err₂ (1 + i), h₂ (1 + i) (by omega) (by omega)⟩)
      (fun i hi => hagree i (by omega))
  · exact retryLoop_fail_prefix_invocations op₁ p n (p.maxAttempts - 1) 1 (by omega)
      (fun i hi => ⟨err₁ (1 + i), h₁ (1 + i) (by omega) (by omega)⟩)

/-- C5 witness: two operations failing on attempt 1 with different errors
(5 and 7) and agreeing afterwards produce identical `retry` traces under
`maxAttempts = 3`, and at least two invocations occur. -/
theorem retry_absorbs_intermediate_errors_witness :
    retry (fun m => if m = 1 then Except.error 5 else (Except.error m : Except Nat Nat))
        ⟨3, 1, 2⟩
      = retry (fun m => if m = 1 then Except.error 7 else (Except.error m : Except Nat Nat))
          ⟨3, 1, 2⟩ ∧
    1 + 1 ≤ (retry (fun m => if m = 1 then Except.error 5
        else (Except.error m : Except Nat Nat)) ⟨3, 1, 2⟩).invocations :=
  retry_absorbs_intermediate_errors
    (fun m => if m = 1 then Except.error 5 else Except.error m)
    (fun m => if m = 1 then Except.error 7 else Except.error m)
    ⟨3, 1, 2⟩ (fun _ => 5) (fun _ => 7) 1
    (by decide)
    (fun i hi1 hi2 => by
      have hi : i = 1 := by omega
      subst hi
      rfl)
    (fun i hi1 hi2 => by
      have hi : i = 1 := by omega
      subst hi
      rfl)
    (fun i hi => by
      have hne : i ≠ 1 := by omega
      simp [hne])

/-- C6: a policy with `maxAttempts < 1` makes `retry` fail fast with a
configuration error before the operation is invoked even once: the trace
records zero invocations and no delays. -/
theorem retry_invalid_policy (op : Nat → Except ε α) (p : RetryPolicy)
    (h : p.maxAttempts < 1) :
    retry op p = ⟨Except.error RetryError.configurationError, 0, []⟩ := by
  rw [retry, if_pos h]

/-- C6 witness: `maxAttempts = 0` yields the configuration error with zero
invocations even for an operation that would succeed. -/
theorem retry_invalid_policy_witness :
    retry (fun _ => (Except.ok 1 : Except Nat Nat)) ⟨0, 1, 2⟩
      = ⟨Except.error RetryError.configurationError, 0, []⟩ :=
  retry_invalid_policy (fun _ => Except.ok 1) ⟨0, 1, 2⟩ (by decide)

/-- C7: one invocation of `retry` under a valid policy yields exactly one
terminal outcome: either a single success value, which is the value
produced by the final (successful) invocation, or the single error of the
final attempt, reached only when all `maxAttempts` attempts ran; between
1 and `maxAttempts` sequential invocations occur. -/
theorem retry_single_terminal_outcome (op : Nat → Except ε α) (p : RetryPolicy)
    (hmax : 1 ≤ p.maxAttempts) :
    1 ≤ (retry op p).invocations ∧
    (retry op p).invocations ≤ p.maxAttempts ∧
    ((∃ v, (retry op p).outcome = Except.ok v ∧
           op ((retry op p).invocations) = Except.ok v) ∨
     (∃ e, (retry op p).outcome = Except.error (RetryError.operationError e) ∧
           op ((retry op p).invocations) = Except.error e ∧
           (retry op p).invocations = p.maxAttempts)) := by
  have hnot : ¬ p.maxAttempts < 1 := by omega
  rw [retry, if_neg hnot]
  have hmin := retryLoop_min_invocations op p (p.maxAttempts - 1) 1
  obtain ⟨hub, hcase⟩ := retryLoop_terminal op p (p.maxAttempts - 1) 1
  have hidx : 1 + ((retryLoop op p (p.maxAttempts - 1) 1).invocations - 1)
      = (retryLoop op p (p.maxAttempts - 1) 1).invocations := by omega
  rw [hidx] at hcase
  refine ⟨hmin, by omega, ?_⟩
  rcases hcase with ⟨v, hv1, hv2⟩ | ⟨e, he1, he2, he3⟩
  · exact Or.inl ⟨v, hv1, hv2⟩
  · exact Or.inr ⟨e, he1, he2, by omega⟩

/-- C7 witness: an operation succeeding immediately under
`maxAttempts = 2` produces the single success outcome within the
invocation bounds. -/
theorem retry_single_terminal_outcome_witness :
    1 ≤ (retry (fun _ => (Except.ok 3 : Except Nat Nat)) ⟨2, 1, 2⟩).invocations ∧
    (retry (fun _ => (Except.ok 3 : Except Nat Nat)) ⟨2, 1, 2⟩).invocations ≤ 2 ∧
    ((∃ v, (retry (fun _ => (Except.ok 3 : Except Nat Nat)) ⟨2, 1, 2⟩).outcome
          = Except.ok v ∧
        (fun _ => (Except.ok 3 : Except Nat Nat))
            ((retry (fun _ => (Except.ok 3 : Except Nat Nat)) ⟨2, 1, 2⟩).invocations)
          = Except.ok v) ∨
     (∃ e, (retry (fun _ => (Except.ok 3 : Except Nat Nat)) ⟨2, 1, 2⟩).outcome
          = Except.error (RetryError.operationError e) ∧
        (fun _ => (Except.ok 3 : Except Nat Nat))
            ((retry (fun _ => (Except.ok 3 : Except Nat Nat)) ⟨2, 1, 2⟩).invocations)
          = Except.error e ∧
        (retry (fun _ => (Except.ok 3 : Except Nat Nat)) ⟨2, 1, 2⟩).invocations = 2)) :=
  retry_single_terminal_outcome (fun _ => Except.ok 3) ⟨2, 1, 2⟩ (by decide)

/-! ### Claim theorems for the helper functions of createAsset.js -/

/-- Each arm of `getPlatform` returns a platform string or exactly the
`Unrecognized` error built from the four arguments. -/
theorem win32Platform_total (product os arch type : String) :
    (∃ s, win32Platform product os arch type = Except.ok s) ∨
    win32Platform product os arch type
      = Except.error (unrecognizedMsg product os arch type) := by
  unfold win32Platform
  split_ifs <;>
    first
      | exact Or.inl ⟨_, rfl⟩
      | exact Or.inr rfl

theorem alpinePlatform_total (product os arch type : String) :
    (∃ s, alpinePlatform product os arch type = Except.ok s) ∨
    alpinePlatform product os arch type
      = Except.error (unrecognizedMsg product os arch type) := by
  unfold alpinePlatform
  split_ifs <;>
    first
      | exact Or.inl ⟨_, rfl⟩
      | exact Or.inr rfl

theorem linuxPlatform_total (product os arch type : String) :
    (∃ s, linuxPlatform product os arch type = Except.ok s) ∨
    linuxPlatform product os arch type
      = Except.error (unrecognizedMsg product os arch type) := by
  unfold linuxPlatform
  split_ifs <;>
    first
      | exact Or.inl ⟨_, rfl⟩
      | exact Or.inr rfl

theorem darwinPlatform_total (product os arch type : String) :
    (∃ s, darwinPlatform product os arch type = Except.ok s) ∨
    darwinPlatform product os arch type
      = Except.error (unrecognizedMsg product os arch type) := by
  unfold darwinPlatform
  split_ifs <;>
    first
      | exact Or.inl ⟨_, rfl⟩
      | exact Or.inr rfl

/-- C8: `getPlatform` and `getRealType` are pure deterministic functions
of their arguments alone (the embedding is a total function consuming
only its arguments, matching the source, which reads no outside state):
any two evaluations on the same input agree, and `getPlatform` either
returns a platform string or the `Unrecognized` error built from exactly
its four arguments. -/
theorem getPlatform_getRealType_deterministic :
    (∀ product os arch type : String,
        (∃ s, getPlatform product os arch type = Except.ok s) ∨
        getPlatform product os arch type
          = Except.error (unrecognizedMsg product os arch type)) ∧
    (∀ product os arch type r₁ r₂,
        getPlatform product os arch type = r₁ →
        getPlatform product os arch type = r₂ → r₁ = r₂) ∧
    (∀ t r₁ r₂, getRealType t = r₁ → getRealType t = r₂ → r₁ = r₂) := by
  refine ⟨?_, ?_, ?_⟩
  · intro product os arch type
    unfold getPlatform
    split_ifs <;>
      first
        | exact win32Platform_total product os arch type
        | exact alpinePlatform_total product os arch type
        | exact linuxPlatform_total product os arch type
        | exact darwinPlatform_total product os arch type
        | exact Or.inr rfl
  · intro _ _ _ _ r₁ r₂ h1 h2
    rw [← h1, ← h2]
  · intro _ r₁ r₂ h1 h2
    rw [← h1, ← h2]

/-- C8 witness: two evaluations of `getPlatform` on
`(client, darwin, x64, archive-unsigned)` agree, and the totality
disjunction holds at `(client, win32, arm64, archive)`. -/
theorem getPlatform_getRealType_deterministic_witness :
    ((∃ s, getPlatform "client" "win32" "arm64" "archive" = Except.ok s) ∨
      getPlatform "client" "win32" "arm64" "archive"
        = Except.error (unrecognizedMsg "client" "win32" "arm64" "archive")) ∧
    (Except.ok "darwin" : Except String String) = Except.ok "darwin" :=
  ⟨getPlatform_getRealType_deterministic.1 "client" "win32" "arm64" "archive",
   getPlatform_getRealType_deterministic.2.1 "client" "darwin" "x64" "archive-unsigned"
     (Except.ok "darwin") (Except.ok "darwin") rfl rfl⟩

/-- C9: `getRealType` maps `user-setup` to `setup`, both `deb-package`
and `rpm-package` to `package`, leaves every other string unchanged, and
is idempotent. -/
theorem getRealType_mapping_idempotent :
    getRealType "user-setup" = "setup" ∧
    getRealType "deb-package" = "package" ∧
    getRealType "rpm-package" = "package" ∧
    (∀ t, t ≠ "user-setup" → t ≠ "deb-package" → t ≠ "rpm-package" →
        getRealType t = t) ∧
    (∀ t, getRealType (getRealType t) = getRealType t) := by
  refine ⟨rfl, rfl, rfl, ?_, ?_⟩
  · intro t h1 h2 h3
    simp [getRealType, h1, h2, h3]
  · intro t
    by_cases h1 : t = "user-setup"
    · subst h1
      rfl
    · by_cases h2 : t = "deb-package"
      · subst h2
        rfl
      · by_cases h3 : t = "rpm-package"
        · subst h3
          rfl
        · simp [getRealType, h1, h2, h3]

/-- C9 witness: the default branch at input `archive` returns the input
unchanged, and idempotence holds at `user-setup`. -/
theorem getRealType_mapping_idempotent_witness :
    getRealType "archive" = "archive" ∧
    getRealType (getRealType "user-setup") = getRealType "user-setup" :=
  ⟨getRealType_mapping_idempotent.2.2.2.1 "archive"
      (by decide) (by decide) (by decide),
   getRealType_mapping_idempotent.2.2.2.2 "user-setup"⟩

/-- C10: `getEnv` raises exactly the error `Missing env: <name>` precisely
when the variable is undefined in the environment, and otherwise returns
the variable's value verbatim. -/
theorem getEnv_missing_or_verbatim (env : String → Option String) (name : String) :
    (getEnv env name = Except.error ("Missing env: " ++ name) ↔ env name = none) ∧
    (∀ v, getEnv env name = Except.ok v ↔ env name = some v) := by
  cases h : env name with
  | none => simp [getEnv, h]
  | some v => simp [getEnv, h]

/-- C10 witness: in an empty environment the lookup of `VSCODE_QUALITY`
raises `Missing env: VSCODE_QUALITY`, and a defined variable is returned
verbatim. -/
theorem getEnv_missing_or_verbatim_witness :
    getEnv (fun _ => none) "VSCODE_QUALITY"
        = Except.error ("Missing env: " ++ "VSCODE_QUALITY") ∧
    getEnv (fun _ => some "stable") "VSCODE_QUALITY" = Except.ok "stable" :=
  ⟨((getEnv_missing_or_verbatim (fun _ => none) "VSCODE_QUALITY").1).mpr rfl,
   ((getEnv_missing_or_verbatim (fun _ => some "stable") "VSCODE_QUALITY").2 "stable").mpr rfl⟩

end Submit
